import Mathlib

/-!
Verification of the NEM12 CSV to SQL generator (Generator component).

The development shallowly embeds the record interpreter found in the
Generator component: the chunk callback of the CSV parse run (row dispatch
on the first field, the running currentNMI / intervalLength context, the
expansion of interval-data rows into timestamped meter readings), the SQL
formatting used by the copy action, and the component state transitions of
a parse run (loading / error / records).

JavaScript numbers are modelled by `JSNum`: the values reachable here are
either `NaN`, an infinity, or an exact decimal `m * 10 ^ e` (the inputs all
come from `parseFloat` / `parseInt` of decimal strings, which this model
keeps exact instead of rounding to binary floating point). The context
variable `intervalLength` is a JavaScript number holding either an integer
or `NaN`; it is modelled as `Option Int` with `none` for `NaN`, and `NaN`
propagation through the timestamp arithmetic is modelled explicitly.
-/

namespace CsvSqlGen

/-- Model of a JavaScript number as produced by `parseFloat` on a decimal
string: `NaN`, an infinity, or the exact decimal value `m * 10 ^ e`. -/
inductive JSNum where
  | nan : JSNum
  | inf : JSNum
  | negInf : JSNum
  | dec : Int → Int → JSNum
deriving DecidableEq, Repr

/-- Whitespace accepted (and trimmed) by `parseFloat` / `parseInt`. -/
def isSpaceJS (c : Char) : Bool :=
  c = ' ' || c = '\t' || c = '\n' || c = '\r'

/-- Value of a list of decimal digit characters. -/
def digitsToNat (ds : List Char) : Nat :=
  ds.foldl (fun a c => a * 10 + (c.toNat - 48)) 0

/-- Prefix test on character lists: `hasPrefixCL pat cs` holds when `pat`
is a prefix of `cs`. -/
def hasPrefixCL : List Char → List Char → Bool
  | [], _ => true
  | _ :: _, [] => false
  | a :: as, b :: bs => a = b && hasPrefixCL as bs

/-- Exponent part of a decimal literal, as read by `parseFloat`: an `e` or
`E`, an optional sign, then digits. A malformed exponent part contributes
nothing (the longest valid literal prefix stops before it). -/
def expPart : List Char → Int
  | [] => 0
  | c :: r =>
    if c = 'e' || c = 'E' then
      match r with
      | '-' :: t =>
        if t.takeWhile Char.isDigit = [] then 0
        else -(digitsToNat (t.takeWhile Char.isDigit) : Int)
      | '+' :: t =>
        if t.takeWhile Char.isDigit = [] then 0
        else (digitsToNat (t.takeWhile Char.isDigit) : Int)
      | t =>
        if t.takeWhile Char.isDigit = [] then 0
        else (digitsToNat (t.takeWhile Char.isDigit) : Int)
    else 0

/-- Model of the JavaScript `parseFloat` builtin used on the consumption
fields: trim leading whitespace, optional sign, then the longest prefix
that is `Infinity` or a decimal literal (integer digits, optional fraction,
optional exponent); `NaN` when no digits are found. The exact decimal value
is kept (no rounding to binary floating point). -/
def parseFloatJS (s : String) : JSNum :=
  let cs := s.toList.dropWhile isSpaceJS
  let neg :=
    match cs with
    | '-' :: _ => true
    | _ => false
  let cs1 :=
    match cs with
    | '-' :: r => r
    | '+' :: r => r
    | _ => cs
  if hasPrefixCL "Infinity".toList cs1 then
    if neg then JSNum.negInf else JSNum.inf
  else
    let ip := cs1.takeWhile Char.isDigit
    let rest1 := cs1.dropWhile Char.isDigit
    let fp :=
      match rest1 with
      | '.' :: r => r.takeWhile Char.isDigit
      | _ => []
    let rest2 :=
      match rest1 with
      | '.' :: r => r.dropWhile Char.isDigit
      | _ => rest1
    if ip = [] && fp = [] then JSNum.nan
    else
      JSNum.dec ((if neg then -1 else 1) * (digitsToNat (ip ++ fp) : Int))
        (expPart rest2 - (fp.length : Int))

/-- Model of the JavaScript `parseInt(s, 10)` builtin used on field 8 of a
200 record: trim leading whitespace, optional sign, then the longest prefix
of decimal digits; `none` models the `NaN` result when no digits are found. -/
def parseIntJS (s : String) : Option Int :=
  let cs := s.toList.dropWhile isSpaceJS
  let neg :=
    match cs with
    | '-' :: _ => true
    | _ => false
  let cs1 :=
    match cs with
    | '-' :: r => r
    | '+' :: r => r
    | _ => cs
  let ds := cs1.takeWhile Char.isDigit
  if ds = [] then none
  else some ((if neg then -1 else 1) * (digitsToNat ds : Int))

/-- The `isNaN` test used in the chunk callback. -/
def jsIsNaN : JSNum → Bool
  | JSNum.nan => true
  | _ => false

/-- Finiteness of a JavaScript number (true exactly on decimal values). -/
def jsIsFinite : JSNum → Bool
  | JSNum.dec _ _ => true
  | _ => false

/-- JavaScript truthiness of a string: every non-empty string is truthy. -/
def truthyStr (s : String) : Bool := s != ""

/-- JavaScript truthiness of a number held as `Option Int` (with `none`
for `NaN`): `NaN` and `0` are falsy, every other value is truthy. -/
def truthyNum : Option Int → Bool
  | none => false
  | some n => n != 0

/-- Model of `String.prototype.slice(a, b)` for `0 ≤ a ≤ b`. -/
def jsSlice (s : String) (a b : Nat) : String :=
  ((s.toList.drop a).take (b - a)).asString

/-- Model of `String(x).padStart(2, "0")`. -/
def padStart2 (s : String) : String :=
  (List.replicate (2 - s.length) '0').asString ++ s

/-- Rendering of an integer-or-NaN JavaScript number by `String(...)`. -/
def numShow : Option Int → String
  | none => "NaN"
  | some n => toString n

/-- The timestamp built for total minute offset `offset` past midnight of
the day rendered as `datePrefix`, exactly as in the chunk callback:
hours are `Math.floor(offset / 60)` (floored division), minutes are
`offset % 60` (the JavaScript remainder, sign of the dividend), each
rendered by `String(...)` and padded with `padStart(2, "0")`; `NaN`
propagates through the arithmetic when the offset is `NaN`. -/
def mkTimestamp (datePrefix : String) (offset : Option Int) : String :=
  let intervalHours := offset.map (fun o => Int.fdiv o 60)
  let intervalMinutes := offset.map (fun o => Int.tmod o 60)
  datePrefix ++ " " ++ padStart2 (numShow intervalHours) ++ ":" ++
    padStart2 (numShow intervalMinutes) ++ ":00"

/-- The date prefix computed from field 1 of a 300 row:
`dateStr.slice(0, 4) + "-" + dateStr.slice(4, 6) + "-" + dateStr.slice(6, 8)`. -/
def datePrefixOf (dateStr : String) : String :=
  jsSlice dateStr 0 4 ++ "-" ++ jsSlice dateStr 4 6 ++ "-" ++ jsSlice dateStr 6 8

/-- One emitted output record. -/
structure MeterReading where
  nmi : String
  timestamp : String
  consumption : JSNum
deriving DecidableEq, Repr

/-- The running context of a parse run: the component-local variables
`currentNMI` and `intervalLength` of the chunk callback. -/
structure ParserState where
  currentNMI : String
  intervalLength : Option Int
deriving DecidableEq, Repr

/-- The context at the start of a parse run: `currentNMI = ""` and
`intervalLength = 0`. -/
def initialParserState : ParserState :=
  { currentNMI := "", intervalLength := some 0 }

/-- Expansion of an eligible 300 row: the loop
`for (let i = 2; i < row.length; i++)` parsing each consumption field,
skipping fields whose parse is `NaN`, and emitting one record per numeric
field with offset `(i - 2) * intervalLength` minutes. Fields from index 2
are enumerated, so the enumeration index is the interval index `i - 2`. -/
def process300 (nmi : String) (intervalLength : Option Int)
    (row : List String) : List MeterReading :=
  (row.drop 2).enum.filterMap fun p =>
    match parseFloatJS p.2 with
    | JSNum.nan => none
    | v =>
      some { nmi := nmi,
             timestamp :=
               mkTimestamp (datePrefixOf (row.getD 1 ""))
                 (intervalLength.map (fun L => (p.1 : Int) * L)),
             consumption := v }

/-- Processing of a single CSV row by the chunk callback. A 200 row
overwrites the context with field 1 (verbatim) and `parseInt(field 8, 10)`.
A 300 row emits records only when the (possibly just updated) context has a
truthy `currentNMI` and a truthy `intervalLength`; otherwise it emits
nothing. Any other row leaves the state unchanged and emits nothing.
Out-of-range field reads, `undefined` in JavaScript, are modelled by the
default `""`, which is observationally equivalent here: both are falsy, and
`parseInt` maps both the string for `undefined` and `""` to `NaN`. -/
def processRow (st : ParserState) (row : List String) :
    ParserState × List MeterReading :=
  let st1 :=
    if row.getD 0 "" == "200" then
      { currentNMI := row.getD 1 "", intervalLength := parseIntJS (row.getD 8 "") }
    else st
  if row.getD 0 "" == "300" && truthyStr st1.currentNMI && truthyNum st1.intervalLength then
    (st1, process300 st1.currentNMI st1.intervalLength row)
  else
    (st1, [])

/-- Sequential processing of a list of rows (the `forEach` over the rows of
one chunk), threading the context and appending emissions in order. -/
def processRows (st : ParserState) : List (List String) → ParserState × List MeterReading
  | [] => (st, [])
  | row :: rest =>
    let res := processRow st row
    let resRest := processRows res.1 rest
    (resRest.1, res.2 ++ resRest.2)

/-- Sequential processing of a list of chunks (one chunk-callback
invocation per chunk, in arrival order), threading the context across
chunk boundaries. -/
def processChunks (st : ParserState) :
    List (List (List String)) → ParserState × List MeterReading
  | [] => (st, [])
  | chunk :: rest =>
    let res := processRows st chunk
    let resRest := processChunks res.1 rest
    (resRest.1, res.2 ++ resRest.2)

/-- Strip factors of ten from a mantissa into the exponent, with explicit
fuel so that the definition is structurally recursive and computes inside
the kernel. -/
def stripZerosAux : Nat → Nat → Int → Nat × Int
  | 0, n, e => (n, e)
  | fuel + 1, n, e =>
    if n ≠ 0 ∧ n % 10 = 0 then stripZerosAux fuel (n / 10) (e + 1) else (n, e)

/-- Strip factors of ten from a mantissa into the exponent, so that the
decimal value `n * 10 ^ e` is rendered without trailing fractional zeros,
as JavaScript number-to-string conversion does. Each step divides the
mantissa by ten, so `n` itself is more than enough fuel. -/
def stripZeros (n : Nat) (e : Int) : Nat × Int :=
  stripZerosAux n n e

/-- Positional decimal rendering of the exact value `m * 10 ^ e`, matching
the JavaScript default number-to-string conversion on the decimal values
arising here: no trailing fractional zeros, no decimal point for integers,
a leading `0` before a pure fraction, and a leading `-` for negatives. -/
def renderDec (m : Int) (e : Int) : String :=
  if m = 0 then "0"
  else
    let sign := if m < 0 then "-" else ""
    let ne := stripZeros m.natAbs e
    let s := Nat.repr ne.1
    if 0 ≤ ne.2 then
      sign ++ s ++ (List.replicate ne.2.toNat '0').asString
    else
      let k := (-ne.2).toNat
      if k < s.length then
        sign ++ (s.toList.take (s.length - k)).asString ++ "." ++
          (s.toList.drop (s.length - k)).asString
      else
        sign ++ "0." ++ (List.replicate (k - s.length) '0').asString ++ s

/-- Rendering of a `JSNum` by JavaScript string conversion, as happens to
`record.consumption` inside the SQL template literal. -/
def numToString : JSNum → String
  | JSNum.nan => "NaN"
  | JSNum.inf => "Infinity"
  | JSNum.negInf => "-Infinity"
  | JSNum.dec m e => renderDec m e

/-- The single-quote character, written by code point. -/
def quoteChar : Char := Char.ofNat 39

/-- The single-quote as a string. -/
def squote : String := String.singleton quoteChar

/-- The SQL template literal of `onCopy`, one statement per record. -/
def formatRecord (r : MeterReading) : String :=
  "INSERT INTO meter_readings (nmi, \"timestamp\", consumption) VALUES (" ++
    squote ++ r.nmi ++ squote ++ ", " ++ squote ++ r.timestamp ++ squote ++ ", " ++
    numToString r.consumption ++ ");"

/-- The `records.map(...)` of `onCopy`. -/
def generatedSql (records : List MeterReading) : List String :=
  records.map formatRecord

/-- The `generatedSql.join("\n")` written to the clipboard by `onCopy`. -/
def clipboardText (records : List MeterReading) : String :=
  String.intercalate "\n" (generatedSql records)

/-- The component state held in React state hooks: the accumulated records
and the loading / completed / error flags. -/
structure UIState where
  records : List MeterReading
  loading : Bool
  completed : Bool
  error : Option String
deriving DecidableEq, Repr

/-- The initial component state. -/
def initialUI : UIState :=
  { records := [], loading := false, completed := false, error := none }

/-- The state updates performed by `handleFileChange` before parsing
begins: `setError(null)` and `setLoading(true)`. The records are not
touched. -/
def startRun (s : UIState) : UIState :=
  { s with error := none, loading := true }

/-- A parse run that completes successfully after delivering `chunks`: the
start-of-run reset, the chunk callbacks appending the emitted records of a
fresh parser context, then the complete callback setting `loading := false`
and `completed := true`. -/
def runSuccess (s : UIState) (chunks : List (List (List String))) : UIState :=
  let s0 := startRun s
  { s0 with
    records := s0.records ++ (processChunks initialParserState chunks).2,
    loading := false,
    completed := true }

/-- A parse run that fails with message `msg` after the chunks in `chunks`
were delivered: the start-of-run reset, the chunk callbacks appending the
records emitted before the failure, then the error callback setting the
error text and `loading := false`. -/
def runFailure (s : UIState) (chunks : List (List (List String)))
    (msg : String) : UIState :=
  let s0 := startRun s
  { s0 with
    records := s0.records ++ (processChunks initialParserState chunks).2,
    error := some ("Error parsing CSV file: " ++ msg),
    loading := false }

/-- The copy action: writes the joined SQL statements to the clipboard only
when `completed` is set; `none` models no clipboard write. -/
def onCopy (s : UIState) : Option String :=
  if s.completed then some (clipboardText s.records) else none

/-! ### Specification-side definitions

These definitions transcribe formulas from the specification text, to be
compared against the embedding of the source. -/

/-- Timestamp formula as the specification states it: the date prefix, a
space, `floor(i * L / 60)` hours and `(i * L) mod 60` minutes each
zero-padded to two digits, and seconds `:00`. Indices and the interval
length are natural numbers here, as the specification speaks of interval
index `i` (0-based) and a positive interval length. -/
def specTimestamp (datePrefix : String) (i : Nat) (L : Nat) : String :=
  datePrefix ++ " " ++ padStart2 (Nat.repr (i * L / 60)) ++ ":" ++
    padStart2 (Nat.repr (i * L % 60)) ++ ":00"

/-- The INSERT statement shape as the specification states it: `nmi` and
`timestamp` single-quoted verbatim with no escaping, `consumption` as its
numeric literal. -/
def specFormatRecord (r : MeterReading) : String :=
  "INSERT INTO meter_readings (nmi, \"timestamp\", consumption) VALUES (" ++
    squote ++ r.nmi ++ squote ++ ", " ++ squote ++ r.timestamp ++ squote ++ ", " ++
    numToString r.consumption ++ ");"

/-! ### Helper lemmas -/

theorem truthyNum_some_of_ne {L : Int} (h : L ≠ 0) : truthyNum (some L) = true := by
  simp [truthyNum, h]

theorem truthyStr_of_ne {s : String} (h : s ≠ "") : truthyStr s = true := by
  simp [truthyStr, h]

/-- Reduction of `processRow` on an eligible 300 row. -/
theorem processRow_eligible (st : ParserState) (row : List String)
    (h0 : row.getD 0 "" = "300") (hn : st.currentNMI ≠ "")
    (hL : truthyNum st.intervalLength = true) :
    processRow st row = (st, process300 st.currentNMI st.intervalLength row) := by
  unfold processRow
  have h200 : (row.getD 0 "" == "200") = false := by rw [h0]; rfl
  have h300 : (row.getD 0 "" == "300") = true := by rw [h0]; rfl
  simp only [h200, h300, Bool.false_eq_true, if_false, truthyStr_of_ne hn, hL,
    Bool.and_self, Bool.true_and, if_true]

/-! ### Claim theorems -/

/-- C4: the input rows `["200","NMI123","Q","U","S","A","E","kWh","30"]`
then `["300","20230101","10.5","11.5"]` produce exactly two records, in
order `(NMI123, 2023-01-01 00:00:00, 10.5)` then
`(NMI123, 2023-01-01 00:30:00, 11.5)`. -/
theorem scenarioA_two_records :
    (processRows initialParserState
      [["200", "NMI123", "Q", "U", "S", "A", "E", "kWh", "30"],
       ["300", "20230101", "10.5", "11.5"]]).2 =
    [{ nmi := "NMI123", timestamp := "2023-01-01 00:00:00",
       consumption := JSNum.dec 105 (-1) },
     { nmi := "NMI123", timestamp := "2023-01-01 00:30:00",
       consumption := JSNum.dec 115 (-1) }] ∧
    numToString (JSNum.dec 105 (-1)) = "10.5" ∧
    numToString (JSNum.dec 115 (-1)) = "11.5" := by
  decide

/-- C6: the clipboard text is the newline-join of one statement per record
of the exact shape the specification gives, and Scenario B (a 200 row for
NMI456 with interval length 60, then a 300 row for 2023-02-02 with one
value 15.5) produces exactly the statement
`INSERT INTO meter_readings (nmi, "timestamp", consumption) VALUES (#NMI456#, #2023-02-02 00:00:00#, 15.5);`
with `#` standing for the single-quote character here. -/
theorem clipboard_shape_and_scenarioB :
    (∀ records : List MeterReading,
      clipboardText records =
        String.intercalate "\n" (records.map specFormatRecord)) ∧
    onCopy (runSuccess initialUI
      [[["200", "NMI456", "", "", "", "", "", "", "60"]],
       [["300", "20230202", "15.5"]]]) =
    some ("INSERT INTO meter_readings (nmi, \"timestamp\", consumption) VALUES (" ++
      squote ++ "NMI456" ++ squote ++ ", " ++ squote ++ "2023-02-02 00:00:00" ++ squote ++
      ", 15.5);") := by
  exact ⟨fun records => rfl, by decide⟩

/-- C7: SQL formatting is a pure, order-preserving map over the records:
the generated list has the same length as the record list, and its entry at
any index is determined by the record at that same index alone. -/
theorem generatedSql_order_preserving_map :
    ∀ (records : List MeterReading) (i : Nat),
      (generatedSql records).length = records.length ∧
      (generatedSql records)[i]? = (records[i]?).map formatRecord := by
  intro records i
  exact ⟨by simp [generatedSql], by simp [generatedSql]⟩

/-- C8: a parse run that fails with underlying message `m` leaves the
user-visible error text exactly `Error parsing CSV file: ` followed by `m`,
clears the loading state, and keeps every record emitted before the
failure (emission is append-only); in particular the message
`Test parsing error` surfaces exactly as
`Error parsing CSV file: Test parsing error`. -/
theorem runFailure_error_text_and_frame :
    (∀ (s : UIState) (chunks : List (List (List String))) (m : String),
      (runFailure s chunks m).error = some ("Error parsing CSV file: " ++ m) ∧
      (runFailure s chunks m).loading = false ∧
      (runFailure s chunks m).records =
        s.records ++ (processChunks initialParserState chunks).2) ∧
    (runFailure initialUI [] "Test parsing error").error =
      some "Error parsing CSV file: Test parsing error" := by
  exact ⟨fun s chunks m => ⟨rfl, rfl, rfl⟩, by decide⟩

/-- Reduction of `processRow` when the row is not a 200 row and the
context is falsy in either component: the state is unchanged and nothing
is emitted. -/
theorem processRow_not_eligible (st : ParserState) (row : List String)
    (h200 : row.getD 0 "" ≠ "200")
    (hfail : truthyStr st.currentNMI = false ∨ truthyNum st.intervalLength = false) :
    processRow st row = (st, []) := by
  unfold processRow
  have h200b : (row.getD 0 "" == "200") = false := by
    simpa [beq_eq_false_iff_ne] using h200
  rcases hfail with h | h <;>
    simp only [h200b, Bool.false_eq_true, if_false, h, Bool.and_false, Bool.false_and]

/-- Rows containing no 200 row leave a falsy interval length in place and
emit nothing. -/
theorem processRows_falsy (rows : List (List String)) :
    ∀ st : ParserState, truthyNum st.intervalLength = false →
      (∀ r ∈ rows, r.getD 0 "" ≠ "200") → processRows st rows = (st, []) := by
  induction rows with
  | nil => intro st _ _; rfl
  | cons row rest ih =>
    intro st hst hrows
    have hrow : processRow st row = (st, []) :=
      processRow_not_eligible st row (hrows row (by simp)) (Or.inr hst)
    have hrest : processRows st rest = (st, []) :=
      ih st hst (fun r hr => hrows r (by simp [hr]))
    simp only [processRows, hrow, hrest]
    rfl

/-- C5: a 200 row overwrites the context with field 1 verbatim and the
base-10 integer parse of field 8, emitting nothing, independent of any
prior context; and when that parse fails (NaN interval length), subsequent
rows none of which is a 200 row emit nothing. -/
theorem row200_overwrites_and_nan_disables :
    ∀ (st : ParserState) (row : List String), row.getD 0 "" = "200" →
      ((processRow st row).1 =
        { currentNMI := row.getD 1 "", intervalLength := parseIntJS (row.getD 8 "") } ∧
       (processRow st row).2 = []) ∧
      (parseIntJS (row.getD 8 "") = none →
        ∀ rows : List (List String), (∀ r ∈ rows, r.getD 0 "" ≠ "200") →
          (processRows (processRow st row).1 rows).2 = []) := by
  intro st row h0
  have hrow : processRow st row =
      ({ currentNMI := row.getD 1 "", intervalLength := parseIntJS (row.getD 8 "") }, []) := by
    unfold processRow
    have h200 : (row.getD 0 "" == "200") = true := by rw [h0]; rfl
    have h300 : (row.getD 0 "" == "300") = false := by rw [h0]; rfl
    simp only [h200, if_true, h300, Bool.false_and, Bool.false_eq_true, if_false]
  refine ⟨⟨by rw [hrow], by rw [hrow]⟩, ?_⟩
  intro hnan rows hrows
  rw [hrow]
  have : truthyNum (parseIntJS (row.getD 8 "")) = false := by rw [hnan]; rfl
  rw [processRows_falsy rows _ this hrows]

/-- Witness input: the Scenario A 200 row. -/
def sampleRow200 : List String := ["200", "NMI123", "Q", "U", "S", "A", "E", "kWh", "30"]

/-- Witness for C5 at the Scenario A 200 row applied to the initial
context. -/
theorem row200_overwrites_witness :
    sampleRow200.getD 0 "" = "200" ∧
    (processRow initialParserState sampleRow200).1 =
      { currentNMI := sampleRow200.getD 1 "",
        intervalLength := parseIntJS (sampleRow200.getD 8 "") } ∧
    (processRow initialParserState sampleRow200).2 = [] :=
  ⟨by decide,
   (row200_overwrites_and_nan_disables initialParserState sampleRow200 (by decide)).1.1,
   (row200_overwrites_and_nan_disables initialParserState sampleRow200 (by decide)).1.2⟩

/-- C2 counterexample: a 200 row whose interval-length field reads `-30`
sets a negative, hence non-positive, interval length, yet the following
300 row still emits a record; the claim says such a row is dropped. -/
theorem row300_guard_counterexample :
    parseIntJS "-30" = some (-30) ∧ ¬ (0 : Int) < -30 ∧
    (processRows initialParserState
      [["200", "NMI1", "", "", "", "", "", "", "-30"],
       ["300", "20230101", "1.5"]]).2 ≠ [] := by
  decide

/-- C2 amended: a 300 row emits records only if `currentNMI` is non-empty
and `intervalLength` is a nonzero number (non-NaN) — truthiness, not
positivity; when `currentNMI` is empty or `intervalLength` is NaN or zero
(in particular before any 200 row, or after a 200 row whose
interval-length field failed to parse or was zero), the row is dropped
with no record, no state change and no error. -/
theorem row300_guard_truthy :
    ∀ (st : ParserState) (row : List String), row.getD 0 "" = "300" →
      ((processRow st row).2 ≠ [] →
        st.currentNMI ≠ "" ∧ ∃ L, st.intervalLength = some L ∧ L ≠ 0) ∧
      ((st.currentNMI = "" ∨ st.intervalLength = none ∨ st.intervalLength = some 0) →
        processRow st row = (st, [])) := by
  intro st row h0
  have h200 : row.getD 0 "" ≠ "200" := by rw [h0]; decide
  constructor
  · intro hne
    by_cases hn : st.currentNMI = ""
    · exact absurd
        (by rw [processRow_not_eligible st row h200
            (Or.inl (by simp [truthyStr, hn]))]) hne
    · refine ⟨hn, ?_⟩
      cases hL : st.intervalLength with
      | none =>
        exact absurd
          (by rw [processRow_not_eligible st row h200
              (Or.inr (by rw [hL]; rfl))]) hne
      | some L =>
        by_cases hz : L = 0
        · exact absurd
            (by rw [processRow_not_eligible st row h200
                (Or.inr (by rw [hL, hz]; rfl))]) hne
        · exact ⟨L, rfl, hz⟩
  · intro hfail
    apply processRow_not_eligible st row h200
    rcases hfail with h | h | h
    · exact Or.inl (by simp [truthyStr, h])
    · exact Or.inr (by rw [h]; rfl)
    · exact Or.inr (by rw [h]; rfl)

/-- Witness for the amended C2: a truthy context under which a 300 row
emits, from which the theorem recovers the nonzero interval length. -/
theorem row300_guard_witness :
    ∃ L, (some (30 : Int) : Option Int) = some L ∧ L ≠ 0 :=
  ((row300_guard_truthy { currentNMI := "NMI1", intervalLength := some 30 }
      ["300", "20230101", "1.5"] (by decide)).1 (by decide)).2

/-- C9: starting a parse run resets only the error and loading flags; the
accumulated records survive, and a successful second run appends its
emissions to them, so both the record count and the clipboard input cover
both runs. -/
theorem second_run_appends :
    ∀ (s : UIState) (chunks : List (List (List String))), s.records ≠ [] →
      (startRun s).records = s.records ∧
      (startRun s).completed = s.completed ∧
      (startRun s).error = none ∧
      (startRun s).loading = true ∧
      (runSuccess s chunks).records =
        s.records ++ (processChunks initialParserState chunks).2 ∧
      (runSuccess s chunks).records.length =
        s.records.length + (processChunks initialParserState chunks).2.length := by
  intro s chunks _
  exact ⟨rfl, rfl, rfl, rfl, rfl, by simp [runSuccess, startRun]⟩

/-- Witness record for the C9 witness state. -/
def sampleReading : MeterReading :=
  { nmi := "NMI123", timestamp := "2023-01-01 00:00:00", consumption := JSNum.dec 105 (-1) }

/-- Witness state: a component holding one record from a prior completed
run. -/
def samplePriorUI : UIState :=
  { records := [sampleReading], loading := false, completed := true, error := none }

/-- Witness for C9 at a state holding one prior record and an empty second
file. -/
theorem second_run_appends_witness :
    samplePriorUI.records ≠ [] ∧
    ((startRun samplePriorUI).records = samplePriorUI.records ∧
     (startRun samplePriorUI).completed = samplePriorUI.completed ∧
     (startRun samplePriorUI).error = none ∧
     (startRun samplePriorUI).loading = true ∧
     (runSuccess samplePriorUI []).records =
       samplePriorUI.records ++ (processChunks initialParserState []).2 ∧
     (runSuccess samplePriorUI []).records.length =
       samplePriorUI.records.length + (processChunks initialParserState []).2.length) :=
  ⟨by decide, second_run_appends samplePriorUI [] (by decide)⟩

/-! ### Timestamp arithmetic bridge -/

theorem toString_intCast (n : Nat) : toString ((n : Nat) : Int) = Nat.repr n := by
  show Int.repr (Int.ofNat n) = Nat.repr n
  rfl

theorem tmod_coe (a b : Nat) : Int.tmod (a : Int) (b : Int) = ((a % b : Nat) : Int) := by
  show Int.tmod (Int.ofNat a) (Int.ofNat b) = Int.ofNat (a % b)
  rfl

/-- For a non-negative minute offset `i * L` with `L` positive, the
JavaScript floored-division and remainder arithmetic of `mkTimestamp`
coincides with the natural-number formula of the specification. -/
theorem mkTimestamp_eq_spec (dp : String) (i : Nat) (L : Int) (hL : 0 < L) :
    mkTimestamp dp (some ((i : Int) * L)) = specTimestamp dp i L.toNat := by
  have hcast : (i : Int) * L = ((i * L.toNat : Nat) : Int) := by
    push_cast
    rw [Int.toNat_of_nonneg hL.le]
  have h60 : (60 : Int) = ((60 : Nat) : Int) := by norm_cast
  unfold mkTimestamp specTimestamp
  simp only [Option.map_some', numShow, hcast, h60, ← Int.ofNat_fdiv, tmod_coe,
    toString_intCast]

/-- Characterization of `process300` under a positive interval length: it
is the filter-map over position-enumerated consumption fields that skips
exactly the `NaN`-parsing fields and stamps field `i` with the
specification formula at interval index `i`. -/
theorem process300_eq_spec (nmi : String) (L : Int) (hL : 0 < L) (row : List String) :
    process300 nmi (some L) row =
      (row.drop 2).enum.filterMap (fun p =>
        match parseFloatJS p.2 with
        | JSNum.nan => none
        | v =>
          some { nmi := nmi,
                 timestamp := specTimestamp (datePrefixOf (row.getD 1 "")) p.1 L.toNat,
                 consumption := v }) := by
  unfold process300
  congr 1
  funext p
  have hmk : mkTimestamp (datePrefixOf (row.getD 1 ""))
      ((some L).map (fun l => (p.1 : Int) * l)) =
      specTimestamp (datePrefixOf (row.getD 1 "")) p.1 L.toNat := by
    rw [show (some L).map (fun l => (p.1 : Int) * l) = some ((p.1 : Int) * L) from rfl]
    exact mkTimestamp_eq_spec _ p.1 L hL
  cases hp : parseFloatJS p.2 <;> simp only [hp, hmk]

/-- C1: on an eligible 300 row with positive interval length `L`, the
emitted records are exactly the filter-map of the position-enumerated
consumption fields: a field parsing to `NaN` is skipped without aborting
the row and without shifting the interval index of later fields, and the
record of the field at interval index `i` carries the timestamp of the
sliced date prefix at `floor(i * L / 60)` hours and `(i * L) mod 60`
minutes, zero-padded to two digits, with seconds `:00`. -/
theorem row300_timestamps :
    ∀ (st : ParserState) (row : List String) (L : Int),
      row.getD 0 "" = "300" → st.currentNMI ≠ "" → st.intervalLength = some L →
      0 < L →
      (processRow st row).2 =
        (row.drop 2).enum.filterMap (fun p =>
          match parseFloatJS p.2 with
          | JSNum.nan => none
          | v =>
            some { nmi := st.currentNMI,
                   timestamp := specTimestamp (datePrefixOf (row.getD 1 "")) p.1 L.toNat,
                   consumption := v }) := by
  intro st row L h0 hn hL hpos
  rw [processRow_eligible st row h0 hn
    (by rw [hL]; exact truthyNum_some_of_ne (by omega))]
  dsimp only
  rw [hL, process300_eq_spec st.currentNMI L hpos row]

/-- Witness row for C1: one field fails numeric parsing between two that
succeed. -/
def sampleRow300 : List String := ["300", "20230101", "10.5", "x", "11.5"]

/-- Witness context for C1. -/
def sampleContext : ParserState := { currentNMI := "NMI123", intervalLength := some 30 }

/-- Witness for C1 at a concrete eligible row with a non-numeric middle
field. -/
theorem row300_timestamps_witness :
    (sampleRow300.getD 0 "" = "300" ∧ sampleContext.currentNMI ≠ "" ∧
     sampleContext.intervalLength = some 30 ∧ (0 : Int) < 30) ∧
    (processRow sampleContext sampleRow300).2 =
      (sampleRow300.drop 2).enum.filterMap (fun p =>
        match parseFloatJS p.2 with
        | JSNum.nan => none
        | v =>
          some { nmi := sampleContext.currentNMI,
                 timestamp :=
                   specTimestamp (datePrefixOf (sampleRow300.getD 1 "")) p.1
                     (Int.toNat 30),
                 consumption := v }) :=
  ⟨⟨by decide, by decide, rfl, by decide⟩,
   row300_timestamps sampleContext sampleRow300 30 (by decide) (by decide) rfl
     (by decide)⟩

/-- C10: the hour of an emitted timestamp is never wrapped at 24 and the
date part is never advanced: for an eligible 300 row and a numeric field
at interval index `i` with `i * L ≥ 1440` minutes, the emitted record
carries the original sliced date of the row together with the hour
`floor(i * L / 60) ≥ 24` rendered as such, not a next-day rollover. -/
theorem hour_not_wrapped :
    ∀ (st : ParserState) (row : List String) (L : Int) (i : Nat) (f : String),
      row.getD 0 "" = "300" → st.currentNMI ≠ "" → st.intervalLength = some L →
      0 < L → (row.drop 2)[i]? = some f → jsIsNaN (parseFloatJS f) = false →
      1440 ≤ i * L.toNat →
      ({ nmi := st.currentNMI,
         timestamp := specTimestamp (datePrefixOf (row.getD 1 "")) i L.toNat,
         consumption := parseFloatJS f } : MeterReading) ∈ (processRow st row).2 ∧
      24 ≤ i * L.toNat / 60 := by
  intro st row L i f h0 hn hL hpos hget hnan hbig
  constructor
  · rw [processRow_eligible st row h0 hn
      (by rw [hL]; exact truthyNum_some_of_ne (by omega))]
    dsimp only
    rw [hL, process300_eq_spec st.currentNMI L hpos row]
    apply List.mem_filterMap.mpr
    refine ⟨(i, f), ?_, ?_⟩
    · exact List.mk_mem_enum_iff_getElem?.mpr hget
    · cases hp : parseFloatJS f with
      | nan => rw [hp] at hnan; cases hnan
      | inf => simp only [hp]
      | negInf => simp only [hp]
      | dec m e => simp only [hp]
  · omega

/-- Witness context for C10: interval length 1440 minutes. -/
def sampleContext1440 : ParserState := { currentNMI := "NMI1", intervalLength := some 1440 }

/-- Witness row for C10: the field at interval index 1 lies 1440 minutes
past midnight. -/
def sampleRow1440 : List String := ["300", "20230101", "1.0", "2.0"]

/-- Witness for C10: at interval index 1 with interval length 1440 the
timestamp keeps the original date with hour 24. -/
theorem hour_not_wrapped_witness :
    (sampleRow1440.getD 0 "" = "300" ∧ sampleContext1440.currentNMI ≠ "" ∧
     sampleContext1440.intervalLength = some 1440 ∧ (0 : Int) < 1440 ∧
     (sampleRow1440.drop 2)[1]? = some "2.0" ∧
     jsIsNaN (parseFloatJS "2.0") = false ∧ 1440 ≤ 1 * (1440 : Int).toNat) ∧
    (({ nmi := sampleContext1440.currentNMI,
        timestamp :=
          specTimestamp (datePrefixOf (sampleRow1440.getD 1 "")) 1 (Int.toNat 1440),
        consumption := parseFloatJS "2.0" } : MeterReading) ∈
      (processRow sampleContext1440 sampleRow1440).2 ∧
     24 ≤ 1 * (1440 : Int).toNat / 60) :=
  ⟨⟨by decide, by decide, rfl, by decide, by decide, by decide, by decide⟩,
   hour_not_wrapped sampleContext1440 sampleRow1440 1440 1 "2.0" (by decide)
     (by decide) rfl (by decide) (by decide) (by decide) (by decide)⟩

/-! ### Emission invariant infrastructure -/

theorem mem_process300_not_nan (nmi : String) (L : Option Int) (row : List String)
    (r : MeterReading) (hr : r ∈ process300 nmi L row) :
    jsIsNaN r.consumption = false := by
  unfold process300 at hr
  rcases List.mem_filterMap.mp hr with ⟨p, _, hp⟩
  cases hpf : parseFloatJS p.2 <;> rw [hpf] at hp
  · cases hp
  · cases hp; rfl
  · cases hp; rfl
  · cases hp; rfl

/-- The emission of `processRow` is either empty or a `process300` call. -/
theorem processRow_snd_cases (st : ParserState) (row : List String) :
    (processRow st row).2 = [] ∨
    ∃ nmi L, (processRow st row).2 = process300 nmi L row := by
  unfold processRow
  dsimp only
  split
  · split
    · exact Or.inr ⟨_, _, rfl⟩
    · exact Or.inl rfl
  · split
    · exact Or.inr ⟨_, _, rfl⟩
    · exact Or.inl rfl

theorem mem_processRow_not_nan (st : ParserState) (row : List String)
    (r : MeterReading) (hr : r ∈ (processRow st row).2) :
    jsIsNaN r.consumption = false := by
  rcases processRow_snd_cases st row with h | ⟨nmi, L, h⟩
  · rw [h] at hr; cases hr
  · rw [h] at hr; exact mem_process300_not_nan nmi L row r hr

theorem mem_processRows_not_nan :
    ∀ (rows : List (List String)) (st : ParserState) (r : MeterReading),
      r ∈ (processRows st rows).2 → jsIsNaN r.consumption = false := by
  intro rows
  induction rows with
  | nil => intro st r hr; cases hr
  | cons row rest ih =>
    intro st r hr
    simp only [processRows] at hr
    rcases List.mem_append.mp hr with h | h
    · exact mem_processRow_not_nan st row r h
    · exact ih (processRow st row).1 r h

theorem mem_processChunks_not_nan :
    ∀ (chunks : List (List (List String))) (st : ParserState) (r : MeterReading),
      r ∈ (processChunks st chunks).2 → jsIsNaN r.consumption = false := by
  intro chunks
  induction chunks with
  | nil => intro st r hr; cases hr
  | cons chunk rest ih =>
    intro st r hr
    simp only [processChunks] at hr
    rcases List.mem_append.mp hr with h | h
    · exact mem_processRows_not_nan chunk st r h
    · exact ih (processRows st chunk).1 r h

/-- Length of a filter-map over an enumeration whose kept-or-dropped
decision depends only on the element, not its index. -/
theorem length_filterMap_enumFrom {β : Type} (g : Nat × String → Option β)
    (p : String → Bool) (hg : ∀ i a, (g (i, a)).isSome = p a) :
    ∀ (l : List String) (n : Nat),
      ((List.enumFrom n l).filterMap g).length = (l.filter p).length := by
  intro l
  induction l with
  | nil => intro n; rfl
  | cons a l ih =>
    intro n
    rw [List.enumFrom_cons, List.filterMap_cons, List.filter_cons]
    cases hga : g (n, a) with
    | none =>
      have hpa : p a = false := by rw [← hg n a, hga]; rfl
      simp only [hpa, Bool.false_eq_true, if_false, ih]
    | some b =>
      have hpa : p a = true := by rw [← hg n a, hga]; rfl
      simp only [hpa, if_true, List.length_cons, ih]

/-- C3 counterexample: the field `Infinity` parses to a non-finite,
non-NaN number, and the code emits a record for it; the claim that a
record is emitted only for a field parsing as a finite number is false. -/
theorem emission_finite_counterexample :
    (processRows initialParserState
      [["200", "NMI1", "", "", "", "", "", "", "30"],
       ["300", "20230101", "Infinity"]]).2 =
      [{ nmi := "NMI1", timestamp := "2023-01-01 00:00:00",
         consumption := JSNum.inf }] ∧
    jsIsFinite JSNum.inf = false := by
  decide

/-- C3 amended: over every chunk sequence, a record is only ever emitted
for a consumption field whose parse is not `NaN` (rather than finite:
`Infinity` also passes the check and is emitted), and an eligible 300 row
with `k` consumption fields emits exactly `j` records where `j` counts the
fields parsing to a non-`NaN` number; non-numeric fields are silently
skipped with no record and no error. -/
theorem emission_requires_numeric :
    (∀ (st : ParserState) (chunks : List (List (List String))) (r : MeterReading),
      r ∈ (processChunks st chunks).2 → jsIsNaN r.consumption = false) ∧
    (∀ (st : ParserState) (row : List String) (L : Int),
      row.getD 0 "" = "300" → st.currentNMI ≠ "" → st.intervalLength = some L →
      L ≠ 0 →
      (processRow st row).2.length =
        ((row.drop 2).filter (fun f => !jsIsNaN (parseFloatJS f))).length) := by
  constructor
  · intro st chunks r hr
    exact mem_processChunks_not_nan chunks st r hr
  · intro st row L h0 hn hL hz
    rw [processRow_eligible st row h0 hn (by rw [hL]; exact truthyNum_some_of_ne hz)]
    dsimp only
    rw [hL]
    unfold process300
    rw [List.enum_eq_enumFrom]
    apply length_filterMap_enumFrom
    intro i a
    cases hpf : parseFloatJS a <;> simp [hpf, jsIsNaN]

/-- Witness for the amended C3: the invariant applied to a concrete
emitted record, and the exact count on an eligible row with one numeric
and one non-numeric field. -/
theorem emission_requires_numeric_witness :
    (({ nmi := "NMI123", timestamp := "2023-01-01 00:00:00",
        consumption := JSNum.dec 105 (-1) } : MeterReading) ∈
      (processChunks initialParserState
        [[["200", "NMI123", "Q", "U", "S", "A", "E", "kWh", "30"],
          ["300", "20230101", "10.5", "x"]]]).2 →
      jsIsNaN (JSNum.dec 105 (-1)) = false) ∧
    (processRow sampleContext sampleRow300).2.length =
      ((sampleRow300.drop 2).filter (fun f => !jsIsNaN (parseFloatJS f))).length :=
  ⟨emission_requires_numeric.1 initialParserState
      [[["200", "NMI123", "Q", "U", "S", "A", "E", "kWh", "30"],
        ["300", "20230101", "10.5", "x"]]]
      { nmi := "NMI123", timestamp := "2023-01-01 00:00:00",
        consumption := JSNum.dec 105 (-1) },
   emission_requires_numeric.2 sampleContext sampleRow300 30 (by decide) (by decide)
     rfl (by decide)⟩

end CsvSqlGen
